import Mathlib

/-
Shallow embedding of `extensions/skyportal/skyportal/handlers/api/kowalski_filter.py`
(the `KowalskiFilterHandler` class of the fritz repository).

The handler is a relay: each of the four HTTP methods (get/post/patch/delete)
performs an authorization-scoped database lookup of a `Filter` record, possibly
validates the JSON request body, issues at most one call to the remote Kowalski
API via `kowalski.api(method=..., endpoint=..., data=...)`, and normalizes the
remote response into a success/error envelope.

Modelling choices:
  - JSON values are the inductive `JVal`; JSON objects (Python dicts produced by
    `self.get_json()` and by the remote client) are association lists
    `List (String × JVal)` read with `List.lookup`, mirroring Python `.get`
    which yields `None` (here `Option.none`) for an absent key.
  - The database is a list of `Filter` rows and a list of `Stream` rows; the
    SQLAlchemy `query(...).filter(...).first()` is a `List.filter` followed by
    `List.head?`.
  - The remote client is a function `RemoteCall → RemoteReply` carried in the
    context; `RemoteReply.exn` stands for the client raising an exception
    (transport failure).  The handler records every remote call it issues in
    the second component of its result, so "zero remote calls" is `= []`.
  - A Python exception escaping the handler (there is no try/except around the
    remote call or the stream dereference in the source) is the result
    constructor `HandlerResult.fault`; `self.success` / `self.error` are the
    other two constructors.
  - Python truthiness (`if not pipeline`, `bool(x)`) is `JVal.truthy`; `str(x)`
    is `JVal.pyStr`, matching CPython on JSON-representable values.
-/

namespace KowalskiFilter

/-- A JSON value as delivered by `self.get_json()` or the remote client. -/
inductive JVal where
  | null : JVal
  | bool : Bool → JVal
  | num : Int → JVal
  | str : String → JVal
  | arr : List JVal → JVal
  | obj : List (String × JVal) → JVal

/-- Python truthiness of a JSON value: `bool(x)` / `if not x`. -/
def JVal.truthy : JVal → Bool
  | .null => false
  | .bool b => b
  | .num n => n != 0
  | .str s => s != ""
  | .arr xs => !xs.isEmpty
  | .obj kvs => !kvs.isEmpty

mutual

/-- Python `repr` of a JSON-representable value (used by `str` on containers). -/
def JVal.pyRepr : JVal → String
  | .null => "None"
  | .bool true => "True"
  | .bool false => "False"
  | .num n => toString n
  | .str s => "\x27" ++ s ++ "\x27"
  | .arr xs => "[" ++ JVal.pyReprItems xs ++ "]"
  | .obj kvs => "\x7b" ++ JVal.pyReprEntries kvs ++ "\x7d"

/-- Comma-separated `repr`s of the elements of a JSON array. -/
def JVal.pyReprItems : List JVal → String
  | [] => ""
  | [x] => JVal.pyRepr x
  | x :: xs => JVal.pyRepr x ++ ", " ++ JVal.pyReprItems xs

/-- Comma-separated `repr`s of the entries of a JSON object. -/
def JVal.pyReprEntries : List (String × JVal) → String
  | [] => ""
  | [(k, v)] => "\x27" ++ k ++ "\x27: " ++ JVal.pyRepr v
  | (k, v) :: kvs => "\x27" ++ k ++ "\x27: " ++ JVal.pyRepr v ++ ", " ++ JVal.pyReprEntries kvs

end

/-- Python `str` of a JSON-representable value: identity on strings, `repr` otherwise. -/
def JVal.pyStr : JVal → String
  | .str s => s
  | v => v.pyRepr

/-- Python `x == "success"` for `x` the result of `response.get("status")`:
only the very string compares equal. -/
def statusIsSuccess : Option JVal → Bool
  | some (.str s) => s == "success"
  | _ => false

/-- A row of the `filters` table (the columns the handler reads). -/
structure Filter where
  id : Nat
  group_id : Nat
  stream_id : Nat
deriving DecidableEq

/-- A row of the `streams` table (the columns the handler reads). -/
structure Stream where
  id : Nat
  altdata : List (String × JVal)

/-- A group, as yielded by `self.current_user.accessible_groups`. -/
structure Group where
  id : Nat
deriving DecidableEq

/-- One call to `kowalski.api(method=..., endpoint=..., data=...)`;
`data = none` when the `data` keyword argument is not passed. -/
structure RemoteCall where
  method : String
  endpoint : String
  data : Option (List (String × JVal))

/-- What the remote client does with a call: return a JSON object, or raise
(transport failure / malformed response). -/
inductive RemoteReply where
  | ok : List (String × JVal) → RemoteReply
  | exn : RemoteReply

/-- The handler's observable outcome: `self.success(data=...)`,
`self.error(message=...)`, or an uncaught Python exception. -/
inductive HandlerResult where
  | success : Option JVal → HandlerResult
  | error : Option JVal → HandlerResult
  | fault : String → HandlerResult

/-- Everything ambient to one request: the database tables, the caller's
accessible groups, and the module-level `kowalski` client. -/
structure Ctx where
  filters : List Filter
  streams : List Stream
  accessible_groups : List Group
  api : RemoteCall → RemoteReply

/-- The authorization-scoped lookup shared verbatim by all four methods:
`DBSession().query(Filter).filter(Filter.id == filter_id,
Filter.group_id.in_([g.id for g in self.current_user.accessible_groups])).first()`. -/
def firstAccessibleFilter (ctx : Ctx) (filter_id : Nat) : Option Filter :=
  (ctx.filters.filter fun f =>
    f.id == filter_id && (ctx.accessible_groups.map Group.id).contains f.group_id).head?

/-- The error envelope `self.error("Invalid filter ID.")`. -/
def invalidFilterId : HandlerResult := .error (some (.str "Invalid filter ID."))

namespace KowalskiFilterHandler

/-- `KowalskiFilterHandler.get`: Fetch a filter from Kowalski. -/
def get (ctx : Ctx) (filter_id : Nat) : HandlerResult × List RemoteCall :=
  match firstAccessibleFilter ctx filter_id with
  | none => (invalidFilterId, [])
  | some _ =>
    let call : RemoteCall := ⟨"get", "api/filters/" ++ toString filter_id, none⟩
    match ctx.api call with
    | .exn => (.fault "uncaught exception from kowalski.api", [call])
    | .ok response =>
      let data := response.lookup "data"
      let status := response.lookup "status"
      let message := response.lookup "message"
      if statusIsSuccess status then (.success data, [call])
      else (.error message, [call])

/-- `KowalskiFilterHandler.post`: Create (POST a new filter version on Kowalski). -/
def post (ctx : Ctx) (filter_id : Nat) (body : List (String × JVal)) :
    HandlerResult × List RemoteCall :=
  match body.lookup "pipeline" with
  | none => (.error (some (.str "Missing pipeline parameter")), [])
  | some pipeline =>
    if !pipeline.truthy then (.error (some (.str "Missing pipeline parameter")), [])
    else
      match firstAccessibleFilter ctx filter_id with
      | none => (invalidFilterId, [])
      | some f =>
        let group_id := f.group_id
        match (ctx.streams.filter fun s => s.id == f.stream_id).head? with
        | none => (.fault "AttributeError: NoneType object has no attribute altdata", [])
        | some stream =>
          match stream.altdata.lookup "collection" with
          | none => (.fault "KeyError: collection", [])
          | some catalog =>
            match stream.altdata.lookup "selector" with
            | none => (.fault "KeyError: selector", [])
            | some permissions =>
              let post_data : List (String × JVal) :=
                [("group_id", JVal.num group_id),
                 ("filter_id", JVal.num filter_id),
                 ("catalog", catalog),
                 ("permissions", permissions),
                 ("pipeline", pipeline)]
              let call : RemoteCall := ⟨"post", "api/filters", some post_data⟩
              match ctx.api call with
              | .exn => (.fault "uncaught exception from kowalski.api", [call])
              | .ok response =>
                let data := response.lookup "data"
                let status := response.lookup "status"
                let message := response.lookup "message"
                if statusIsSuccess status then (.success data, [call])
                else (.error message, [call])

/-- The `patch_data` dict built by `KowalskiFilterHandler.patch`: the key
`filter_id`, then one entry per supplied optional field, `active`, `autosave`
and `update_annotations` coerced with `bool(...)` and `active_fid` with
`str(...)`; an absent field contributes no entry. -/
def patchData (filter_id : Nat)
    (active active_fid autosave update_annotations : Option JVal) :
    List (String × JVal) :=
  [("filter_id", JVal.num filter_id)]
  ++ (match active with
      | some v => [("active", JVal.bool v.truthy)]
      | none => [])
  ++ (match active_fid with
      | some v => [("active_fid", JVal.str v.pyStr)]
      | none => [])
  ++ (match autosave with
      | some v => [("autosave", JVal.bool v.truthy)]
      | none => [])
  ++ (match update_annotations with
      | some v => [("update_annotations", JVal.bool v.truthy)]
      | none => [])

/-- `KowalskiFilterHandler.patch`: Update a filter on Kowalski. -/
def patch (ctx : Ctx) (filter_id : Nat) (body : List (String × JVal)) :
    HandlerResult × List RemoteCall :=
  let active := body.lookup "active"
  let active_fid := body.lookup "active_fid"
  let autosave := body.lookup "autosave"
  let update_annotations := body.lookup "update_annotations"
  if ([active, active_fid, autosave, update_annotations].countP Option.isNone) < 1 then
    (.error (some (.str "At least one of (active, active_fid, autosave, update_annotations) must be set")), [])
  else
    match firstAccessibleFilter ctx filter_id with
    | none => (invalidFilterId, [])
    | some _ =>
      let patch_data := patchData filter_id active active_fid autosave update_annotations
      let call : RemoteCall := ⟨"patch", "api/filters", some patch_data⟩
      match ctx.api call with
      | .exn => (.fault "uncaught exception from kowalski.api", [call])
      | .ok response =>
        let data := response.lookup "data"
        let status := response.lookup "status"
        let message := response.lookup "message"
        if statusIsSuccess status then (.success data, [call])
        else (.error message, [call])

/-- `KowalskiFilterHandler.delete`: Deactivate a filter on Kowalski. -/
def delete (ctx : Ctx) (filter_id : Nat) : HandlerResult × List RemoteCall :=
  match firstAccessibleFilter ctx filter_id with
  | none => (invalidFilterId, [])
  | some _ =>
    let call : RemoteCall := ⟨"patch", "api/filters/" ++ toString filter_id, none⟩
    match ctx.api call with
    | .exn => (.fault "uncaught exception from kowalski.api", [call])
    | .ok response =>
      let status := response.lookup "status"
      let message := response.lookup "message"
      if statusIsSuccess status then (.success none, [call])
      else (.error message, [call])

end KowalskiFilterHandler

/-! Concrete requests used by counterexamples and witnesses. -/

/-- A context with an empty database; the remote client would raise if called. -/
def ctxEmpty : Ctx := ⟨[], [], [], fun _ => .exn⟩

/-- A context with one filter (id 1, group 1, stream 1) accessible to the
caller, a stream with the two expected altdata keys, and a remote client that
always answers `{"status": "success"}`. -/
def ctxOne : Ctx :=
  ⟨[⟨1, 1, 1⟩],
   [⟨1, [("collection", .str "ZTF_alerts"), ("selector", .arr [.num 1, .num 2])]⟩],
   [⟨1⟩],
   fun _ => .ok [("status", .str "success")]⟩

/-- Like `ctxOne`, but the remote client raises on every call (remote service
unreachable). -/
def ctxExn : Ctx :=
  ⟨[⟨1, 1, 1⟩],
   [⟨1, [("collection", .str "ZTF_alerts"), ("selector", .arr [.num 1, .num 2])]⟩],
   [⟨1⟩],
   fun _ => .exn⟩

/-- Like `ctxOne`, but the `streams` table has no row matching the filter. -/
def ctxNoStream : Ctx := ⟨[⟨1, 1, 1⟩], [], [⟨1⟩], fun _ => .ok [("status", .str "success")]⟩

/-! C1 -/

/-- The literal statement of claim C1: whenever the filter identifier does not
resolve to an accessible `Filter` row, all four operations answer
`"Invalid filter ID."` with zero remote calls, for every request body. -/
def claimC1 : Prop :=
  ∀ (ctx : Ctx) (fid : Nat) (body : List (String × JVal)),
    firstAccessibleFilter ctx fid = none →
      KowalskiFilterHandler.get ctx fid = (invalidFilterId, []) ∧
      KowalskiFilterHandler.post ctx fid body = (invalidFilterId, []) ∧
      KowalskiFilterHandler.patch ctx fid body = (invalidFilterId, []) ∧
      KowalskiFilterHandler.delete ctx fid = (invalidFilterId, []) ∧
      True

/-- C1 is false as stated: with an empty database (so no filter identifier is
accessible) and an empty request body, Create answers
`"Missing pipeline parameter"`, not `"Invalid filter ID."` — body validation
runs before the authorization lookup. -/
theorem C1_counterexample : ¬ claimC1 := by
  intro h
  have h2 := (h ctxEmpty 1 [] rfl).2.1
  have h3 : KowalskiFilterHandler.post ctxEmpty 1 [] =
      (.error (some (.str "Missing pipeline parameter")), []) := rfl
  rw [h3] at h2
  simp [invalidFilterId] at h2

/-- C1 (amended): whenever the filter identifier does not resolve to an
accessible `Filter` row, each operation answers `"Invalid filter ID."` with
zero remote calls for every request body that passes the operation's
pre-authorization body validation: Fetch and Deactivate unconditionally,
Create when the body carries a truthy `pipeline`, Update when at least one of
the four optional fields is absent (the code's presence check). -/
theorem C1_amended_invalid_filter (ctx : Ctx) (fid : Nat) (body : List (String × JVal))
    (h : firstAccessibleFilter ctx fid = none) :
    KowalskiFilterHandler.get ctx fid = (invalidFilterId, []) ∧
    KowalskiFilterHandler.delete ctx fid = (invalidFilterId, []) ∧
    ((∃ p, body.lookup "pipeline" = some p ∧ p.truthy = true) →
      KowalskiFilterHandler.post ctx fid body = (invalidFilterId, [])) ∧
    (1 ≤ [body.lookup "active", body.lookup "active_fid", body.lookup "autosave",
          body.lookup "update_annotations"].countP Option.isNone →
      KowalskiFilterHandler.patch ctx fid body = (invalidFilterId, [])) := by
  refine ⟨?_, ?_, ?_, ?_⟩
  · simp [KowalskiFilterHandler.get, h]
  · simp [KowalskiFilterHandler.delete, h]
  · rintro ⟨p, hp, hpt⟩
    simp [KowalskiFilterHandler.post, hp, hpt, h]
  · intro hcount
    simp only [KowalskiFilterHandler.patch]
    rw [if_neg (by omega)]
    simp [h]

/-- C1 (amended) holds at a concrete unauthorized request. -/
theorem C1_amended_invalid_filter_witness :
    firstAccessibleFilter ctxEmpty 7 = none ∧
    (KowalskiFilterHandler.get ctxEmpty 7 = (invalidFilterId, []) ∧
     KowalskiFilterHandler.delete ctxEmpty 7 = (invalidFilterId, []) ∧
     ((∃ p, List.lookup "pipeline" [("pipeline", JVal.arr [JVal.obj []])] = some p ∧
        p.truthy = true) →
       KowalskiFilterHandler.post ctxEmpty 7 [("pipeline", JVal.arr [JVal.obj []])] =
         (invalidFilterId, [])) ∧
     (1 ≤ [List.lookup "active" [("pipeline", JVal.arr [JVal.obj []])],
           List.lookup "active_fid" [("pipeline", JVal.arr [JVal.obj []])],
           List.lookup "autosave" [("pipeline", JVal.arr [JVal.obj []])],
           List.lookup "update_annotations"
             [("pipeline", JVal.arr [JVal.obj []])]].countP Option.isNone →
       KowalskiFilterHandler.patch ctxEmpty 7 [("pipeline", JVal.arr [JVal.obj []])] =
         (invalidFilterId, []))) :=
  ⟨rfl, C1_amended_invalid_filter ctxEmpty 7 [("pipeline", JVal.arr [JVal.obj []])] rfl⟩

/-! C2 -/

/-- C2 is a bug in the code: the presence check
`(active, active_fid, autosave, update_annotations).count(None) < 1` is
inverted.  A body with all four optional fields absent sails through the check
(the handler proceeds to authorization and issues the remote PATCH with only
`filter_id` in the payload), while a body supplying all four is the one that is
rejected with the validation message. -/
theorem C2_presence_check_inverted :
    KowalskiFilterHandler.patch ctxOne 1 [] =
      (.success none, [⟨"patch", "api/filters", some [("filter_id", JVal.num 1)]⟩]) ∧
    KowalskiFilterHandler.patch ctxOne 1
        [("active", JVal.bool true), ("active_fid", JVal.str "abcdef"),
         ("autosave", JVal.bool true), ("update_annotations", JVal.bool false)] =
      (.error (some (.str
        "At least one of (active, active_fid, autosave, update_annotations) must be set")), []) :=
  ⟨rfl, rfl⟩

/-! C3 -/

/-- C3 is a bug in the code: no operation guards the remote call, so a raising
remote client (remote service unreachable) escapes every handler method as an
uncaught exception instead of being turned into an error envelope.  Shown here
on all four operations against `ctxExn`, whose client raises on every call. -/
theorem C3_transport_failure_uncaught :
    KowalskiFilterHandler.get ctxExn 1 =
      (.fault "uncaught exception from kowalski.api",
       [⟨"get", "api/filters/1", none⟩]) ∧
    KowalskiFilterHandler.post ctxExn 1 [("pipeline", JVal.arr [JVal.obj []])] =
      (.fault "uncaught exception from kowalski.api",
       [⟨"post", "api/filters",
         some [("group_id", JVal.num 1), ("filter_id", JVal.num 1),
               ("catalog", JVal.str "ZTF_alerts"),
               ("permissions", JVal.arr [JVal.num 1, JVal.num 2]),
               ("pipeline", JVal.arr [JVal.obj []])]⟩]) ∧
    KowalskiFilterHandler.patch ctxExn 1 [("active", JVal.bool true)] =
      (.fault "uncaught exception from kowalski.api",
       [⟨"patch", "api/filters",
         some [("filter_id", JVal.num 1), ("active", JVal.bool true)]⟩]) ∧
    KowalskiFilterHandler.delete ctxExn 1 =
      (.fault "uncaught exception from kowalski.api",
       [⟨"patch", "api/filters/1", none⟩]) :=
  ⟨rfl, rfl, rfl, rfl⟩

/-! C4 -/

/-- C4: an authorized Create with a (truthy) pipeline sends exactly one remote
POST to `api/filters` whose payload is the filter's `group_id`, the path
parameter as `filter_id`, the stream's `altdata["collection"]` as `catalog`,
the stream's `altdata["selector"]` as `permissions`, and the caller-supplied
pipeline — whatever the remote client then replies. -/
theorem C4_create_payload (ctx : Ctx) (fid : Nat) (body : List (String × JVal))
    (f : Filter) (p catalog permissions : JVal) (s : Stream)
    (hp : body.lookup "pipeline" = some p)
    (hpt : p.truthy = true)
    (hf : firstAccessibleFilter ctx fid = some f)
    (hs : (ctx.streams.filter fun t => t.id == f.stream_id).head? = some s)
    (hc : s.altdata.lookup "collection" = some catalog)
    (hsel : s.altdata.lookup "selector" = some permissions) :
    (KowalskiFilterHandler.post ctx fid body).2 =
      [⟨"post", "api/filters",
        some [("group_id", JVal.num f.group_id),
              ("filter_id", JVal.num fid),
              ("catalog", catalog),
              ("permissions", permissions),
              ("pipeline", p)]⟩] := by
  simp only [KowalskiFilterHandler.post, hp, hpt, hf, hs, hc, hsel,
    Bool.not_true, Bool.false_eq_true, if_false]
  split <;> first
    | rfl
    | (split <;> rfl)

/-- C4 holds at the concrete request of the spec's example: stream altdata
`collection = "ZTF_alerts"`, `selector = [1, 2]`, pipeline one empty stage. -/
theorem C4_create_payload_witness :
    List.lookup "pipeline" [("pipeline", JVal.arr [JVal.obj []])] =
        some (JVal.arr [JVal.obj []]) ∧
    (JVal.arr [JVal.obj []]).truthy = true ∧
    firstAccessibleFilter ctxOne 1 = some ⟨1, 1, 1⟩ ∧
    (KowalskiFilterHandler.post ctxOne 1 [("pipeline", JVal.arr [JVal.obj []])]).2 =
      [⟨"post", "api/filters",
        some [("group_id", JVal.num 1),
              ("filter_id", JVal.num 1),
              ("catalog", JVal.str "ZTF_alerts"),
              ("permissions", JVal.arr [JVal.num 1, JVal.num 2]),
              ("pipeline", JVal.arr [JVal.obj []])]⟩] :=
  ⟨rfl, rfl, rfl,
    C4_create_payload ctxOne 1 [("pipeline", JVal.arr [JVal.obj []])] ⟨1, 1, 1⟩
      (JVal.arr [JVal.obj []]) (JVal.str "ZTF_alerts") (JVal.arr [JVal.num 1, JVal.num 2])
      ⟨1, [("collection", JVal.str "ZTF_alerts"),
           ("selector", JVal.arr [JVal.num 1, JVal.num 2])]⟩
      rfl rfl rfl rfl rfl rfl⟩

/-! C5 -/

/-- C5: a Create request whose body lacks the `pipeline` key, or carries an
empty pipeline array, is rejected with `"Missing pipeline parameter"` and no
remote call, for any context and any filter identifier. -/
theorem C5_missing_pipeline (ctx : Ctx) (fid : Nat) (body : List (String × JVal))
    (h : body.lookup "pipeline" = none ∨ body.lookup "pipeline" = some (JVal.arr [])) :
    KowalskiFilterHandler.post ctx fid body =
      (.error (some (.str "Missing pipeline parameter")), []) := by
  rcases h with h | h <;> simp [KowalskiFilterHandler.post, h, JVal.truthy]

/-- C5 holds at a concrete request: an accessible filter, body `{}`. -/
theorem C5_missing_pipeline_witness :
    (List.lookup "pipeline" ([] : List (String × JVal)) = none ∨
     List.lookup "pipeline" ([] : List (String × JVal)) = some (JVal.arr [])) ∧
    KowalskiFilterHandler.post ctxOne 1 [] =
      (.error (some (.str "Missing pipeline parameter")), []) :=
  ⟨Or.inl rfl, C5_missing_pipeline ctxOne 1 [] (Or.inl rfl)⟩

/-! Helper lemmas shared by the Update/Fetch/Deactivate normalization claims. -/

/-- The code's status comparison succeeds exactly when the remote `status`
field is the string `"success"`. -/
theorem statusIsSuccess_iff (o : Option JVal) :
    statusIsSuccess o = true ↔ o = some (JVal.str "success") := by
  rcases o with _ | (_ | b | n | s | xs | kvs) <;> simp [statusIsSuccess]

/-- Field-by-field description of the `patch_data` payload: `filter_id` is
always present, each optional field appears (suitably coerced) exactly when it
was supplied, and the key list is exactly `filter_id` plus the supplied
fields. -/
theorem patchData_fields (fid : Nat) (a b c d : Option JVal) :
    (KowalskiFilterHandler.patchData fid a b c d).lookup "filter_id" =
        some (JVal.num fid) ∧
    (KowalskiFilterHandler.patchData fid a b c d).lookup "active" =
        a.map (fun v => JVal.bool v.truthy) ∧
    (KowalskiFilterHandler.patchData fid a b c d).lookup "active_fid" =
        b.map (fun v => JVal.str v.pyStr) ∧
    (KowalskiFilterHandler.patchData fid a b c d).lookup "autosave" =
        c.map (fun v => JVal.bool v.truthy) ∧
    (KowalskiFilterHandler.patchData fid a b c d).lookup "update_annotations" =
        d.map (fun v => JVal.bool v.truthy) ∧
    (KowalskiFilterHandler.patchData fid a b c d).map Prod.fst = "filter_id" ::
        ((if a.isSome then ["active"] else [])
         ++ (if b.isSome then ["active_fid"] else [])
         ++ (if c.isSome then ["autosave"] else [])
         ++ (if d.isSome then ["update_annotations"] else [])) := by
  rcases a with _ | a <;> rcases b with _ | b <;> rcases c with _ | c <;> rcases d with _ | d <;>
    simp [KowalskiFilterHandler.patchData, List.lookup]

/-! C6 -/

/-- C6: an authorized Update whose body passes the code's presence check sends
one remote PATCH to `api/filters` whose payload holds `filter_id` plus exactly
the supplied optional fields — `active`, `autosave`, `update_annotations`
coerced to booleans, `active_fid` coerced to a string, and no key for any
absent field. -/
theorem C6_update_payload (ctx : Ctx) (fid : Nat) (body : List (String × JVal)) (f : Filter)
    (hpass : 1 ≤ [body.lookup "active", body.lookup "active_fid", body.lookup "autosave",
                  body.lookup "update_annotations"].countP Option.isNone)
    (hf : firstAccessibleFilter ctx fid = some f) :
    ∃ pd : List (String × JVal),
      (KowalskiFilterHandler.patch ctx fid body).2 = [⟨"patch", "api/filters", some pd⟩] ∧
      pd.lookup "filter_id" = some (JVal.num fid) ∧
      pd.lookup "active" = (body.lookup "active").map (fun v => JVal.bool v.truthy) ∧
      pd.lookup "active_fid" = (body.lookup "active_fid").map (fun v => JVal.str v.pyStr) ∧
      pd.lookup "autosave" = (body.lookup "autosave").map (fun v => JVal.bool v.truthy) ∧
      pd.lookup "update_annotations" =
        (body.lookup "update_annotations").map (fun v => JVal.bool v.truthy) ∧
      pd.map Prod.fst = "filter_id" ::
        ((if (body.lookup "active").isSome then ["active"] else [])
         ++ (if (body.lookup "active_fid").isSome then ["active_fid"] else [])
         ++ (if (body.lookup "autosave").isSome then ["autosave"] else [])
         ++ (if (body.lookup "update_annotations").isSome then ["update_annotations"]
             else [])) := by
  obtain ⟨h1, h2, h3, h4, h5, h6⟩ := patchData_fields fid (body.lookup "active")
    (body.lookup "active_fid") (body.lookup "autosave") (body.lookup "update_annotations")
  refine ⟨_, ?_, h1, h2, h3, h4, h5, h6⟩
  simp only [KowalskiFilterHandler.patch]
  rw [if_neg (by omega)]
  simp only [hf]
  split <;> first
    | rfl
    | (split <;> rfl)

/-- C6 holds at a concrete request supplying only `active`. -/
theorem C6_update_payload_witness :
    1 ≤ [List.lookup "active" [("active", JVal.bool true)],
         List.lookup "active_fid" [("active", JVal.bool true)],
         List.lookup "autosave" [("active", JVal.bool true)],
         List.lookup "update_annotations" [("active", JVal.bool true)]].countP Option.isNone ∧
    firstAccessibleFilter ctxOne 1 = some ⟨1, 1, 1⟩ ∧
    (∃ pd : List (String × JVal),
      (KowalskiFilterHandler.patch ctxOne 1 [("active", JVal.bool true)]).2 =
        [⟨"patch", "api/filters", some pd⟩] ∧
      pd.lookup "filter_id" = some (JVal.num 1) ∧
      pd.lookup "active" =
        (List.lookup "active" [("active", JVal.bool true)]).map
          (fun v => JVal.bool v.truthy) ∧
      pd.lookup "active_fid" =
        (List.lookup "active_fid" [("active", JVal.bool true)]).map
          (fun v => JVal.str v.pyStr) ∧
      pd.lookup "autosave" =
        (List.lookup "autosave" [("active", JVal.bool true)]).map
          (fun v => JVal.bool v.truthy) ∧
      pd.lookup "update_annotations" =
        (List.lookup "update_annotations" [("active", JVal.bool true)]).map
          (fun v => JVal.bool v.truthy) ∧
      pd.map Prod.fst = "filter_id" ::
        ((if (List.lookup "active" [("active", JVal.bool true)]).isSome
          then ["active"] else [])
         ++ (if (List.lookup "active_fid" [("active", JVal.bool true)]).isSome
             then ["active_fid"] else [])
         ++ (if (List.lookup "autosave" [("active", JVal.bool true)]).isSome
             then ["autosave"] else [])
         ++ (if (List.lookup "update_annotations" [("active", JVal.bool true)]).isSome
             then ["update_annotations"] else []))) :=
  ⟨by decide, rfl,
    C6_update_payload ctxOne 1 [("active", JVal.bool true)] ⟨1, 1, 1⟩ (by decide) rfl⟩

/-! C7 -/

/-- C7: on an authorized Fetch, a remote reply with status `"success"` is
relayed as a success envelope carrying the remote `data` payload unchanged;
any other remote status yields an error envelope carrying the remote `message`
(the error constructor has no data component). -/
theorem C7_fetch_normalization (ctx : Ctx) (fid : Nat) (f : Filter)
    (resp : List (String × JVal))
    (hf : firstAccessibleFilter ctx fid = some f)
    (hr : ctx.api ⟨"get", "api/filters/" ++ toString fid, none⟩ = .ok resp) :
    (resp.lookup "status" = some (JVal.str "success") →
      (KowalskiFilterHandler.get ctx fid).1 = .success (resp.lookup "data")) ∧
    (resp.lookup "status" ≠ some (JVal.str "success") →
      (KowalskiFilterHandler.get ctx fid).1 = .error (resp.lookup "message")) := by
  constructor
  · intro h
    have hT : statusIsSuccess (resp.lookup "status") = true := (statusIsSuccess_iff _).2 h
    simp [KowalskiFilterHandler.get, hf, hr, hT]
  · intro h
    have hF : statusIsSuccess (resp.lookup "status") = false := by
      rw [← Bool.not_eq_true, statusIsSuccess_iff]; exact h
    simp [KowalskiFilterHandler.get, hf, hr, hF]

/-- C7 holds at a concrete authorized Fetch whose remote replies success. -/
theorem C7_fetch_normalization_witness :
    firstAccessibleFilter ctxOne 1 = some ⟨1, 1, 1⟩ ∧
    ctxOne.api ⟨"get", "api/filters/" ++ toString 1, none⟩ =
      .ok [("status", JVal.str "success")] ∧
    ((List.lookup "status" [("status", JVal.str "success")] = some (JVal.str "success") →
      (KowalskiFilterHandler.get ctxOne 1).1 =
        .success (List.lookup "data" [("status", JVal.str "success")])) ∧
     (List.lookup "status" [("status", JVal.str "success")] ≠ some (JVal.str "success") →
      (KowalskiFilterHandler.get ctxOne 1).1 =
        .error (List.lookup "message" [("status", JVal.str "success")]))) :=
  ⟨rfl, rfl, C7_fetch_normalization ctxOne 1 ⟨1, 1, 1⟩ [("status", JVal.str "success")] rfl rfl⟩

/-! C8 -/

/-- C8: an authorized Deactivate issues exactly one remote PATCH to
`api/filters/{filter_id}` with no body; on remote status `"success"` it
answers a bare success envelope (no data), otherwise an error envelope with
the remote `message`. -/
theorem C8_deactivate_relay (ctx : Ctx) (fid : Nat) (f : Filter)
    (resp : List (String × JVal))
    (hf : firstAccessibleFilter ctx fid = some f)
    (hr : ctx.api ⟨"patch", "api/filters/" ++ toString fid, none⟩ = .ok resp) :
    (KowalskiFilterHandler.delete ctx fid).2 =
      [⟨"patch", "api/filters/" ++ toString fid, none⟩] ∧
    (resp.lookup "status" = some (JVal.str "success") →
      (KowalskiFilterHandler.delete ctx fid).1 = .success none) ∧
    (resp.lookup "status" ≠ some (JVal.str "success") →
      (KowalskiFilterHandler.delete ctx fid).1 = .error (resp.lookup "message")) := by
  refine ⟨?_, ?_, ?_⟩
  · simp only [KowalskiFilterHandler.delete, hf, hr]
    split <;> rfl
  · intro h
    have hT : statusIsSuccess (resp.lookup "status") = true := (statusIsSuccess_iff _).2 h
    simp [KowalskiFilterHandler.delete, hf, hr, hT]
  · intro h
    have hF : statusIsSuccess (resp.lookup "status") = false := by
      rw [← Bool.not_eq_true, statusIsSuccess_iff]; exact h
    simp [KowalskiFilterHandler.delete, hf, hr, hF]

/-- C8 holds at a concrete authorized Deactivate whose remote replies success. -/
theorem C8_deactivate_relay_witness :
    firstAccessibleFilter ctxOne 1 = some ⟨1, 1, 1⟩ ∧
    ctxOne.api ⟨"patch", "api/filters/" ++ toString 1, none⟩ =
      .ok [("status", JVal.str "success")] ∧
    ((KowalskiFilterHandler.delete ctxOne 1).2 =
      [⟨"patch", "api/filters/" ++ toString 1, none⟩] ∧
     (List.lookup "status" [("status", JVal.str "success")] = some (JVal.str "success") →
      (KowalskiFilterHandler.delete ctxOne 1).1 = .success none) ∧
     (List.lookup "status" [("status", JVal.str "success")] ≠ some (JVal.str "success") →
      (KowalskiFilterHandler.delete ctxOne 1).1 =
        .error (List.lookup "message" [("status", JVal.str "success")]))) :=
  ⟨rfl, rfl, C8_deactivate_relay ctxOne 1 ⟨1, 1, 1⟩ [("status", JVal.str "success")] rfl rfl⟩

/-! C9 -/

/-- C9: in Create the pipeline validation runs before the authorization
lookup: even for a filter identifier the caller cannot access, a missing or
empty pipeline yields `"Missing pipeline parameter"` — not
`"Invalid filter ID."` — and zero remote calls. -/
theorem C9_validation_precedes_auth (ctx : Ctx) (fid : Nat) (body : List (String × JVal))
    (_hauth : firstAccessibleFilter ctx fid = none)
    (hp : body.lookup "pipeline" = none ∨ body.lookup "pipeline" = some (JVal.arr [])) :
    KowalskiFilterHandler.post ctx fid body =
      (.error (some (.str "Missing pipeline parameter")), []) ∧
    (KowalskiFilterHandler.post ctx fid body).1 ≠ invalidFilterId := by
  have hmain : KowalskiFilterHandler.post ctx fid body =
      (.error (some (.str "Missing pipeline parameter")), []) := by
    rcases hp with h | h <;> simp [KowalskiFilterHandler.post, h, JVal.truthy]
  refine ⟨hmain, ?_⟩
  rw [hmain]
  simp [invalidFilterId]

/-- C9 holds at a concrete inaccessible identifier with an empty body. -/
theorem C9_validation_precedes_auth_witness :
    firstAccessibleFilter ctxEmpty 5 = none ∧
    (List.lookup "pipeline" ([] : List (String × JVal)) = none ∨
     List.lookup "pipeline" ([] : List (String × JVal)) = some (JVal.arr [])) ∧
    (KowalskiFilterHandler.post ctxEmpty 5 [] =
      (.error (some (.str "Missing pipeline parameter")), []) ∧
     (KowalskiFilterHandler.post ctxEmpty 5 []).1 ≠ invalidFilterId) :=
  ⟨rfl, Or.inl rfl, C9_validation_precedes_auth ctxEmpty 5 [] rfl (Or.inl rfl)⟩

/-! C10 -/

/-- C10: in an authorized Create (validation passed), a missing `Stream` row,
or stream altdata lacking the `collection` or `selector` key, makes the
handler fail with an uncaught exception — never an error envelope — and no
remote call is issued. -/
theorem C10_stream_deref_fault (ctx : Ctx) (fid : Nat) (body : List (String × JVal))
    (f : Filter) (p : JVal)
    (hp : body.lookup "pipeline" = some p)
    (hpt : p.truthy = true)
    (hf : firstAccessibleFilter ctx fid = some f)
    (h : (ctx.streams.filter fun t => t.id == f.stream_id).head? = none ∨
         ∃ s, (ctx.streams.filter fun t => t.id == f.stream_id).head? = some s ∧
           (s.altdata.lookup "collection" = none ∨ s.altdata.lookup "selector" = none)) :
    (∃ e, (KowalskiFilterHandler.post ctx fid body).1 = .fault e) ∧
    (KowalskiFilterHandler.post ctx fid body).2 = [] := by
  rcases h with h | ⟨s, hs, hcs⟩
  · have hpost : KowalskiFilterHandler.post ctx fid body =
        (.fault "AttributeError: NoneType object has no attribute altdata", []) := by
      simp [KowalskiFilterHandler.post, hp, hpt, hf, h]
    rw [hpost]; exact ⟨⟨_, rfl⟩, rfl⟩
  · rcases h3 : s.altdata.lookup "collection" with _ | c
    · have hpost : KowalskiFilterHandler.post ctx fid body =
          (.fault "KeyError: collection", []) := by
        simp [KowalskiFilterHandler.post, hp, hpt, hf, hs, h3]
      rw [hpost]; exact ⟨⟨_, rfl⟩, rfl⟩
    · rcases hcs with hc | hsel
      · rw [h3] at hc; exact absurd hc (by simp)
      · have hpost : KowalskiFilterHandler.post ctx fid body =
            (.fault "KeyError: selector", []) := by
          simp [KowalskiFilterHandler.post, hp, hpt, hf, hs, h3, hsel]
        rw [hpost]; exact ⟨⟨_, rfl⟩, rfl⟩

/-- C10 holds at a concrete authorized Create whose filter has no stream row. -/
theorem C10_stream_deref_fault_witness :
    List.lookup "pipeline" [("pipeline", JVal.arr [JVal.obj []])] =
        some (JVal.arr [JVal.obj []]) ∧
    (JVal.arr [JVal.obj []]).truthy = true ∧
    firstAccessibleFilter ctxNoStream 1 = some ⟨1, 1, 1⟩ ∧
    ((∃ e, (KowalskiFilterHandler.post ctxNoStream 1
        [("pipeline", JVal.arr [JVal.obj []])]).1 = .fault e) ∧
     (KowalskiFilterHandler.post ctxNoStream 1
        [("pipeline", JVal.arr [JVal.obj []])]).2 = []) :=
  ⟨rfl, rfl, rfl,
    C10_stream_deref_fault ctxNoStream 1 [("pipeline", JVal.arr [JVal.obj []])]
      ⟨1, 1, 1⟩ (JVal.arr [JVal.obj []]) rfl rfl rfl (Or.inl rfl)⟩

end KowalskiFilter
